import Mathlib

/-!
Verification of the validator core of the xmlschema repository
(src/xmlschema/validator.py), a shallow embedding in Lean 4.

The Python module defines a single base class `XMLSchemaValidator` with
two cooperating pieces:

* a validity tracker: per-node fields `_check_token` / `_valid`, the
  operations `check()`, `checked`, `valid`, `validity`,
  `validation_attempted`, driven by an abstract `check_token` property;
* a decode/encode dispatch layer: `validate`, `iter_errors`, `is_valid`,
  `decode`, `encode`, all driving the abstract generators `iter_decode` /
  `iter_encode` which yield decoded values interleaved with
  `XMLSchemaValidationError` objects.

The embedding below mirrors the source:

* a stream produced by `iter_decode` is a finite `List Item`, where an
  `Item` is either a decoded value or a validation error, each carrying a
  natural-number payload standing for the Python object;
* an abstract node supplies `iter_decode` / `iter_encode` as functions from
  the input datum and the validation mode to `Option (List Item)`: the
  `none` case models the generator raising `NotImplementedError` on its
  first `next`, which is how the unimplemented base generators behave;
* the abstract `check_token` property is modelled by passing its current
  value (an `Option Nat`, since Python code may produce `None`) as an
  explicit argument to the tracker operations that read it;
* Python's dynamic `__setattr__` interception is modelled on an attribute
  dictionary `String → PyVal` over a small universe of Python values.
-/

/-- The three XSD validation modes (`XSD_VALIDATION_MODES` in the source). -/
inductive Mode where
  | strict
  | lax
  | skip
deriving DecidableEq

/-- One item of an `iter_decode` / `iter_encode` stream: a decoded (or
encoded) value, or an `XMLSchemaValidationError`.  Payloads are opaque
naturals standing for the Python objects. -/
inductive Item where
  | value (v : Nat)
  | error (e : Nat)
deriving DecidableEq

/-- The Python test `isinstance(chunk, XMLSchemaValidationError)`. -/
def Item.isError : Item → Bool
  | .error _ => true
  | .value _ => false

/-- The payload of an error item, `none` for a decoded value. -/
def errPayload : Item → Option Nat
  | .error e => some e
  | .value _ => none

/-- An exception escaping one of the driver methods: either a raised
`XMLSchemaValidationError`, or the `NotImplementedError` raised by the
abstract generators of the base class. -/
inductive PyErr where
  | validationError (e : Nat)
  | notImplementedError
deriving DecidableEq

/-- Does an `Except` result represent a raised `XMLSchemaValidationError`? -/
def raisesValidation {α : Type} : Except PyErr α → Bool
  | .error (.validationError _) => true
  | _ => false

/-- A schema node, reduced to what the dispatch layer of
`XMLSchemaValidator` sees: its (possibly unimplemented) `iter_decode` and
`iter_encode` generators.  The `none` result models the generator raising
`NotImplementedError` on its first `next`, the only exception the
source's own generators raise. -/
structure Node where
  iter_decode : Nat → Mode → Option (List Item)
  iter_encode : Nat → Mode → Option (List Item)

/-- The base class itself: both generators `raise NotImplementedError`. -/
def baseNode : Node :=
  { iter_decode := fun _ _ => none
    iter_encode := fun _ _ => none }

/-- `XMLSchemaValidator.iter_errors`: drives `iter_decode` with
`validation='lax'` and yields exactly the chunks that are
`XMLSchemaValidationError` instances, in stream order. -/
def iter_errors (n : Node) (data : Nat) : Except PyErr (List Nat) :=
  match n.iter_decode data Mode.lax with
  | none => .error .notImplementedError
  | some stream => .ok (stream.filterMap errPayload)

/-- `XMLSchemaValidator.validate`: `for error in self.iter_errors(data):
raise error` — raises the first error of the error stream, if any. -/
def validate (n : Node) (data : Nat) : Except PyErr Unit :=
  match iter_errors n data with
  | .error err => .error err
  | .ok [] => .ok ()
  | .ok (e :: _) => .error (.validationError e)

/-- `XMLSchemaValidator.is_valid`: `error = next(self.iter_errors(data),
None); return error is None` — inspects only the head of the error
stream. -/
def is_valid (n : Node) (data : Nat) : Except PyErr Bool :=
  match iter_errors n data with
  | .error err => .error err
  | .ok l => .ok l.head?.isNone

/-- `XMLSchemaValidator.decode`: iterates `iter_decode(data,
validation=validation)`; on the first chunk, raises it when it is a
`XMLSchemaValidationError` and the mode is strict, and otherwise returns
that first chunk as is.  An empty stream falls through the loop and
returns Python's implicit `None`, modelled as `Option.none`. -/
def decode (n : Node) (data : Nat) (mode : Mode) : Except PyErr (Option Item) :=
  match n.iter_decode data mode with
  | none => .error .notImplementedError
  | some [] => .ok none
  | some (c :: _) =>
    if c.isError && (mode == Mode.strict) then
      match c with
      | .error e => .error (.validationError e)
      | .value v => .ok (some (.value v))
    else
      .ok (some c)

/-- `XMLSchemaValidator.encode`: same driving loop as `decode`, over
`iter_encode`. -/
def encode (n : Node) (data : Nat) (mode : Mode) : Except PyErr (Option Item) :=
  match n.iter_encode data mode with
  | none => .error .notImplementedError
  | some [] => .ok none
  | some (c :: _) =>
    if c.isError && (mode == Mode.strict) then
      match c with
      | .error e => .error (.validationError e)
      | .value v => .ok (some (.value v))
    else
      .ok (some c)

/-- The stream shape promised for `iter_decode` streams: every
validation error precedes every produced value (the decoded value, when
present, is final).  `true` on a list in which no error item follows a
value item. -/
def errorsFirst : List Item → Bool
  | [] => true
  | .error _ :: t => errorsFirst t
  | .value _ :: t => t.all fun c => !c.isError

/-!
The validity tracker.  A node's mutable tracker state is the pair of
fields set in `XMLSchemaValidator.__init__`; the abstract `check_token`
property is passed as the explicit argument `g` (its current value),
`Option Nat` because a Python implementation may return `None`, which is
also the initial value of `_check_token`.
-/

/-- The two tracker fields of `XMLSchemaValidator`. -/
structure TrackerState where
  _check_token : Option Nat
  _valid : Option Bool
deriving DecidableEq

/-- `XMLSchemaValidator.__init__`: `_check_token = None`, `_valid = None`. -/
def initTracker : TrackerState := { _check_token := none, _valid := none }

/-- `XMLSchemaValidator.check`: stores the current `check_token` into
`_check_token` and sets `_valid = True`. -/
def check (g : Option Nat) (s : TrackerState) : TrackerState :=
  { s with _check_token := g, _valid := some true }

/-- `XMLSchemaValidator.checked`: `self._check_token == self.check_token`. -/
def checked (g : Option Nat) (s : TrackerState) : Bool :=
  s._check_token == g

/-- `XMLSchemaValidator.valid`: the raw `_valid` field when `checked`,
else `None`. -/
def valid (g : Option Nat) (s : TrackerState) : Option Bool :=
  if checked g s then s._valid else none

/-- `XMLSchemaValidator.validity`: maps `_valid` to one of the three PSVI
strings when `checked`, falling through to `"notKnown"` otherwise (and
also when `_valid` is `None`). -/
def validity (g : Option Nat) (s : TrackerState) : String :=
  if checked g s then
    match s._valid with
    | some true => "valid"
    | some false => "invalid"
    | none => "notKnown"
  else "notKnown"

/-- `XMLSchemaValidator.validation_attempted`: `"full"` iff `checked`. -/
def validation_attempted (g : Option Nat) (s : TrackerState) : String :=
  if checked g s then "full" else "none"

/-!
The `__setattr__` interception guarding the `_valid` field.  Python
attribute state is a dictionary from names to dynamic values, over a small
universe of Python values sufficient for the claims.
-/

/-- A dynamic Python value: `None`, a bool, an int, or a string. -/
inductive PyVal where
  | pnone
  | pbool (b : Bool)
  | pint (n : Int)
  | pstr (s : String)
deriving DecidableEq

/-- Modelled from the spec: `check_value(value, *admitted_values)` lives in
`xmlschema/utils.py`, which is not part of the sources; per the spec,
assigning `validityState` any value outside `{True, False, None}` is
rejected, so `check_value` succeeds exactly when the value is one of the
admitted ones and raises otherwise. -/
def check_value (v : PyVal) (admitted : List PyVal) : Bool :=
  decide (v ∈ admitted)

/-- The attribute dictionary of a validator object. -/
def AttrDict : Type := String → PyVal

/-- `XMLSchemaValidator.__setattr__`: on the name `'_valid'` it first runs
`check_value(value, None, True, False)`, which raises on any other value
(leaving the dictionary untouched); every assignment that survives is
stored by `object.__setattr__`. -/
def setattr (s : AttrDict) (name : String) (value : PyVal) :
    Except String AttrDict :=
  if name = "_valid" &&
      !(check_value value [PyVal.pnone, PyVal.pbool true, PyVal.pbool false]) then
    .error "check_value"
  else
    .ok (fun n => if n = name then value else s n)

/-- The dictionary after `__init__` ran: both fields hold `None` (all
other names are unset; reading them is modelled as `None` too). -/
def initAttrs : AttrDict := fun _ => PyVal.pnone

/-- Applies a sequence of attribute assignments; an assignment that raises
leaves the dictionary unchanged, as in Python. -/
def applySets (s : AttrDict) : List (String × PyVal) → AttrDict
  | [] => s
  | (name, v) :: rest =>
    match setattr s name v with
    | .ok t => applySets t rest
    | .error _ => applySets s rest

/-- The invariant on the `_valid` field: only `None`, `True`, `False`. -/
def validInv (s : AttrDict) : Prop :=
  s "_valid" = PyVal.pnone ∨ s "_valid" = PyVal.pbool true ∨
    s "_valid" = PyVal.pbool false

/-!
Claims about the validity tracker.
-/

/-- Claim C3: for a node whose `check_token` value `g` is stable across
the call, immediately after `check()` the node is `checked`, its
`validity` is one of `"valid"` / `"invalid"` (in fact `"valid"`), the
current token has been recorded into `_check_token`, and the stored
validity field holds `True`. -/
theorem check_sets_checked_and_valid (g : Option Nat) (s : TrackerState) :
    checked g (check g s) = true ∧
    (validity g (check g s) = "valid" ∨ validity g (check g s) = "invalid") ∧
    (check g s)._check_token = g ∧
    (check g s)._valid = some true := by
  refine ⟨?_, Or.inl ?_, rfl, rfl⟩ <;> simp [checked, check, validity]

/-- Claim C4: freshness invariant — when the current `check_token` value
differs from the one a state stores (for instance after `check g` once
the global generation has advanced to `g' ≠ g`), the node reports
`checked = false`, `validity = "notKnown"` and
`validation_attempted = "none"`, regardless of the stored `_valid`. -/
theorem stale_token_reverts_to_unknown (s : TrackerState) (g g' : Option Nat)
    (h : g ≠ g') :
    checked g' (check g s) = false ∧
    validity g' (check g s) = "notKnown" ∧
    validation_attempted g' (check g s) = "none" := by
  have hc : checked g' (check g s) = false := by
    simp [checked, check]
    exact h
  refine ⟨hc, ?_, ?_⟩
  · simp [validity, hc]
  · simp [validation_attempted, hc]

/-- Witness for C4 at the concrete generation advance `some 0 → some 1`. -/
theorem stale_token_reverts_to_unknown_witness :
    checked (some 1) (check (some 0) initTracker) = false ∧
    validity (some 1) (check (some 0) initTracker) = "notKnown" ∧
    validation_attempted (some 1) (check (some 0) initTracker) = "none" :=
  stale_token_reverts_to_unknown initTracker (some 0) (some 1) (by decide)

/-- Claim C5 counterexample: on a freshly constructed node whose
`check_token` property returns `None`, the stored `_check_token` (also
`None`) already equals it, so the node counts as checked and
`validation_attempted` is `"full"`, not `"none"` — the claim fails for
that value of `check_token`. -/
theorem fresh_node_none_token_counterexample :
    validation_attempted none initTracker = "full" ∧
    validation_attempted none initTracker ≠ "none" := by
  constructor
  · rfl
  · intro h
    simp [validation_attempted, checked, initTracker] at h

/-- Claim C5, amended: for a freshly constructed node and any value of
`check_token` other than `None`, `validity` is `"notKnown"` and
`validation_attempted` is `"none"` (when `check_token` returns `None`, the
fresh node already counts as checked: `validation_attempted` is `"full"`,
though `validity` is still `"notKnown"` because `_valid` is `None`). -/
theorem fresh_node_not_known (g : Nat) :
    validity (some g) initTracker = "notKnown" ∧
    validation_attempted (some g) initTracker = "none" := by
  constructor <;> simp [validity, validation_attempted, checked, initTracker]

/-!
Concrete nodes used in witnesses and counterexamples.
-/

/-- A node with implemented, never-raising generators. -/
def mkNode (f : Nat → Mode → List Item) : Node :=
  { iter_decode := fun d m => some (f d m)
    iter_encode := fun d m => some (f d m) }

/-- A node whose stream, in every mode, is an error followed by a value. -/
def nodeEV : Node := mkNode fun _ _ => [Item.error 1, Item.value 2]

/-- A node whose stream, in every mode, is a value followed by an error. -/
def nodeVE : Node := mkNode fun _ _ => [Item.value 5, Item.error 7]

/-- A node whose stream is empty in every mode. -/
def nodeEmpty : Node := mkNode fun _ _ => []

/-!
Claims about the dispatch layer.
-/

/-- Claim C6: `is_valid` returns `True` exactly when the error stream is
empty, and its answer is computed from the head of the error stream alone
(`next(iter_errors(data), None)`), so the rest of the stream is never
examined. -/
theorem is_valid_iff_no_errors (n : Node) (data : Nat) (l : List Nat)
    (h : iter_errors n data = .ok l) :
    is_valid n data = .ok l.head?.isNone ∧
    (is_valid n data = .ok true ↔ iter_errors n data = .ok ([] : List Nat)) := by
  have hv : is_valid n data = .ok l.head?.isNone := by
    simp [is_valid, h]
  refine ⟨hv, ?_⟩
  rw [hv, h]
  cases l with
  | nil => simp
  | cons e t => simp

/-- Witness for C6 on the node whose lax stream is an error then a value:
the error stream is `[1]`. -/
theorem is_valid_iff_no_errors_witness :
    is_valid nodeEV 0 = .ok (([1] : List Nat).head?.isNone) ∧
    (is_valid nodeEV 0 = .ok true ↔ iter_errors nodeEV 0 = .ok ([] : List Nat)) :=
  is_valid_iff_no_errors nodeEV 0 [1] rfl

/-- Claim C7: `iter_errors` is computed from `iter_decode` at mode lax
only (two nodes agreeing at lax have equal `iter_errors`, whatever they do
at other modes), and yields exactly the error items of that stream in
stream order, discarding decoded values; `validate` returns normally when
that stream of errors is empty and otherwise raises its first error. -/
theorem iter_errors_lax_filter_and_validate (n m : Node) (data : Nat)
    (hagree : n.iter_decode data Mode.lax = m.iter_decode data Mode.lax)
    (stream : List Item)
    (h : n.iter_decode data Mode.lax = some stream) :
    iter_errors n data = iter_errors m data ∧
    iter_errors n data = .ok (stream.filterMap errPayload) ∧
    (∀ e, e ∈ stream.filterMap errPayload ↔ Item.error e ∈ stream) ∧
    (validate n data = .ok () ↔ stream.filterMap errPayload = []) ∧
    (∀ e t, stream.filterMap errPayload = e :: t →
      validate n data = .error (.validationError e)) := by
  have hie : iter_errors n data = .ok (stream.filterMap errPayload) := by
    simp [iter_errors, h]
  refine ⟨?_, hie, ?_, ?_, ?_⟩
  · simp [iter_errors, hagree]
  · intro e
    simp only [List.mem_filterMap]
    constructor
    · rintro ⟨c, hc, hpc⟩
      cases c with
      | value v => simp [errPayload] at hpc
      | error x =>
        simp [errPayload] at hpc
        subst hpc
        exact hc
    · intro hc
      exact ⟨Item.error e, hc, rfl⟩
  · rw [validate, hie]
    cases hfm : stream.filterMap errPayload with
    | nil => simp
    | cons e t => simp
  · intro e t hfm
    rw [validate, hie, hfm]

/-- Witness for C7 on the node whose lax stream is an error then a value. -/
theorem iter_errors_lax_filter_and_validate_witness :
    iter_errors nodeEV 0 = .ok ([1] : List Nat) ∧
    validate nodeEV 0 = .error (.validationError 1) := by
  have h := iter_errors_lax_filter_and_validate nodeEV nodeEV 0 rfl
    [Item.error 1, Item.value 2] rfl
  exact ⟨h.2.1, h.2.2.2.2 1 [] rfl⟩

/-- Claim C9: on the base class, whose `iter_decode` is not overridden,
`decode` (in every validation mode) and `validate` raise
`NotImplementedError`, an exception kind distinct from every
`XMLSchemaValidationError`. -/
theorem base_node_raises_not_implemented (data : Nat) (mode : Mode) :
    decode baseNode data mode = .error .notImplementedError ∧
    validate baseNode data = .error .notImplementedError ∧
    (∀ e, PyErr.notImplementedError ≠ PyErr.validationError e) :=
  ⟨rfl, rfl, fun _ h => PyErr.noConfusion h⟩

/-- Claim C10: a node whose `iter_decode` (resp. `iter_encode`) stream is
empty makes `decode` (resp. `encode`) fall through its loop and return
`None`, without raising, in every validation mode including strict. -/
theorem empty_stream_returns_none (n : Node) (data : Nat) (mode : Mode) :
    (n.iter_decode data mode = some [] → decode n data mode = .ok none) ∧
    (n.iter_encode data mode = some [] → encode n data mode = .ok none) := by
  constructor
  · intro h
    simp [decode, h]
  · intro h
    simp [encode, h]

/-- Witness for C10 on the node with empty streams, in strict mode. -/
theorem empty_stream_returns_none_witness :
    decode nodeEmpty 0 Mode.strict = .ok none ∧
    encode nodeEmpty 0 Mode.strict = .ok none :=
  ⟨(empty_stream_returns_none nodeEmpty 0 Mode.strict).1 rfl,
   (empty_stream_returns_none nodeEmpty 0 Mode.strict).2 rfl⟩


/-- Helper: outside strict mode the driving loop of `decode` never raises
a validation error — the only raise in it is guarded by
`validation == 'strict'`. -/
theorem decode_nonstrict_no_raise (n : Node) (data : Nat) (mode : Mode)
    (hm : mode ≠ Mode.strict) :
    raisesValidation (decode n data mode) = false := by
  have hms : (mode == Mode.strict) = false := by
    cases mode <;> simp_all
  cases hs : n.iter_decode data mode with
  | none => simp [decode, raisesValidation, hs]
  | some stream =>
    cases stream with
    | nil => simp [decode, raisesValidation, hs]
    | cons c t => simp [decode, raisesValidation, hs, hms]

/-- Claim C1 counterexample: on a node whose stream is
`[error 1, value 2]`, `decode` in lax mode returns the leading
`ValidationError` chunk itself — it does not discard it and return the
first non-error item `value 2`, as the claim states. -/
theorem decode_lax_error_first_counterexample :
    decode nodeEV 0 Mode.lax = .ok (some (Item.error 1)) ∧
    decode nodeEV 0 Mode.lax ≠ .ok (some (Item.value 2)) := by
  refine ⟨rfl, fun h => ?_⟩
  rw [show decode nodeEV 0 Mode.lax = .ok (some (Item.error 1)) from rfl] at h
  simp at h

/-- Claim C1, amended: `decode` called with a non-strict mode (lax or
skip) returns the first item of the stream as is, even when that item is
a `ValidationError` (nothing is discarded), and it raises a
`ValidationError` only when the mode is strict. -/
theorem decode_nonstrict_returns_first_item (n : Node) (data : Nat)
    (mode : Mode) (stream : List Item)
    (h : n.iter_decode data mode = some stream) :
    (mode ≠ Mode.strict → decode n data mode = .ok stream.head?) ∧
    (raisesValidation (decode n data mode) = true → mode = Mode.strict) := by
  constructor
  · intro hm
    have hms : (mode == Mode.strict) = false := by
      cases mode <;> simp_all
    cases stream with
    | nil => simp [decode, h]
    | cons c t => simp [decode, h, hms]
  · intro hr
    by_contra hm
    have hno := decode_nonstrict_no_raise n data mode hm
    rw [hno] at hr
    cases hr

/-- Witness for the amended C1: in lax mode on the stream
`[error 1, value 2]`, the first item — the error — is what is returned. -/
theorem decode_nonstrict_returns_first_item_witness :
    decode nodeEV 0 Mode.lax = .ok (([Item.error 1, Item.value 2] : List Item).head?) :=
  (decode_nonstrict_returns_first_item nodeEV 0 Mode.lax
    [Item.error 1, Item.value 2] rfl).1 (by decide)

/-- Helper: a stream all of whose items are non-errors contributes no
error payloads. -/
theorem filterMap_errPayload_eq_nil (t : List Item)
    (h : (t.all fun c => !c.isError) = true) : t.filterMap errPayload = [] := by
  induction t with
  | nil => rfl
  | cons c r ih =>
    simp only [List.all_cons, Bool.and_eq_true] at h
    cases c with
    | value v => simp [List.filterMap_cons, errPayload, ih h.2]
    | error e => simp [Item.isError] at h

/-- Claim C2 counterexample: on a mode-independent node whose stream is
`[value 5, error 7]`, `decode` in strict mode returns the leading value
without raising, while `iter_errors` yields one error — so strict
`decode` raising is not equivalent to `iter_errors` being non-empty. -/
theorem strict_raise_iff_errors_counterexample :
    raisesValidation (decode nodeVE 0 Mode.strict) = false ∧
    iter_errors nodeVE 0 = .ok ([7] : List Nat) :=
  ⟨rfl, rfl⟩

/-- Claim C2, amended: for a node whose `iter_decode` stream is the same
in strict and lax mode and yields all its errors before any value (the
shape the protocol promises), `decode` in strict mode raises a
`ValidationError` iff `iter_errors` yields at least one item; and
`decode` in skip mode never raises a `ValidationError`. -/
theorem strict_raises_iff_errors (n : Node) (data : Nat) (stream : List Item)
    (hsame : n.iter_decode data Mode.strict = n.iter_decode data Mode.lax)
    (h : n.iter_decode data Mode.lax = some stream)
    (horder : errorsFirst stream = true) :
    (raisesValidation (decode n data Mode.strict) = true ↔
      iter_errors n data ≠ .ok ([] : List Nat)) ∧
    raisesValidation (decode n data Mode.skip) = false := by
  have hstrict : n.iter_decode data Mode.strict = some stream := hsame.trans h
  have hie : iter_errors n data = .ok (stream.filterMap errPayload) := by
    simp [iter_errors, h]
  refine ⟨?_, decode_nonstrict_no_raise n data Mode.skip (by decide)⟩
  rw [hie]
  cases stream with
  | nil => simp [decode, hstrict, raisesValidation]
  | cons c t =>
    cases c with
    | error e =>
      simp [decode, hstrict, Item.isError, raisesValidation,
        List.filterMap_cons, errPayload]
    | value v =>
      have ht : t.filterMap errPayload = [] := by
        apply filterMap_errPayload_eq_nil
        simpa [errorsFirst] using horder
      simp [decode, hstrict, Item.isError, raisesValidation,
        List.filterMap_cons, errPayload, ht]

/-- Witness for the amended C2 on the node with stream
`[error 1, value 2]`, whose errors do precede its value. -/
theorem strict_raises_iff_errors_witness :
    (raisesValidation (decode nodeEV 0 Mode.strict) = true ↔
      iter_errors nodeEV 0 ≠ .ok ([] : List Nat)) ∧
    raisesValidation (decode nodeEV 0 Mode.skip) = false :=
  strict_raises_iff_errors nodeEV 0 [Item.error 1, Item.value 2] rfl rfl rfl

/-- Helper: a successful `setattr` leaves the `_valid` entry either
unchanged or holding one of the three admitted values. -/
theorem setattr_valid_cases (s : AttrDict) (name : String) (v : PyVal)
    (t : AttrDict) (h : setattr s name v = .ok t) :
    t "_valid" = s "_valid" ∨ t "_valid" = PyVal.pnone ∨
      t "_valid" = PyVal.pbool true ∨ t "_valid" = PyVal.pbool false := by
  rw [setattr] at h
  split at h
  · cases h
  · rename_i hcond
    cases h
    by_cases hn : "_valid" = name
    · subst hn
      cases hb : check_value v [PyVal.pnone, PyVal.pbool true, PyVal.pbool false] with
      | false =>
        exfalso
        apply hcond
        rw [hb]
        decide
      | true =>
        have hv3 : v ∈ [PyVal.pnone, PyVal.pbool true, PyVal.pbool false] := by
          rw [check_value] at hb
          exact of_decide_eq_true hb
        simp only [List.mem_cons, List.not_mem_nil, or_false] at hv3
        rcases hv3 with h1 | h1 | h1 <;> simp [h1]
    · left
      simp [hn]

/-- Helper: applying any sequence of attribute assignments preserves the
`_valid` invariant. -/
theorem applySets_preserves_validInv (ops : List (String × PyVal))
    (s : AttrDict) (hs : validInv s) : validInv (applySets s ops) := by
  induction ops generalizing s with
  | nil => exact hs
  | cons op rest ih =>
    obtain ⟨name, v⟩ := op
    rw [applySets]
    cases hset : setattr s name v with
    | error e => exact ih s hs
    | ok t =>
      apply ih
      rcases setattr_valid_cases s name v t hset with h | h | h | h
      · rw [validInv, h]; exact hs
      · exact Or.inl h
      · exact Or.inr (Or.inl h)
      · exact Or.inr (Or.inr h)

/-- Claim C8: starting from the freshly initialised attribute dictionary,
any sequence of attribute assignments routed through `__setattr__` keeps
the `_valid` field within `{None, True, False}`; assigning `_valid` any
value outside that set raises from `check_value` and, as part of the same
sequence, leaves the dictionary exactly as it was. -/
theorem valid_field_invariant (ops : List (String × PyVal)) (s : AttrDict)
    (v : PyVal)
    (hv : check_value v [PyVal.pnone, PyVal.pbool true, PyVal.pbool false] = false) :
    validInv (applySets initAttrs ops) ∧
    setattr s "_valid" v = .error "check_value" ∧
    applySets s [("_valid", v)] = s := by
  have hset : setattr s "_valid" v = .error "check_value" := by
    rw [setattr]
    simp [hv]
  refine ⟨applySets_preserves_validInv ops initAttrs (Or.inl rfl), hset, ?_⟩
  show (match setattr s "_valid" v with
    | .ok t => applySets t []
    | .error _ => applySets s []) = s
  rw [hset]
  rfl

/-- Witness for C8: assigning the integer `3` to `_valid` is rejected and
the invariant holds after attempting it from a fresh object. -/
theorem valid_field_invariant_witness :
    validInv (applySets initAttrs [("_valid", PyVal.pint 3)]) ∧
    setattr initAttrs "_valid" (PyVal.pint 3) = .error "check_value" ∧
    applySets initAttrs [("_valid", PyVal.pint 3)] = initAttrs :=
  valid_field_invariant [("_valid", PyVal.pint 3)] initAttrs (PyVal.pint 3)
    (by decide)
